import Mathlib

/-!
# acme-dns: the composition root (main.go)

A shallow embedding of `main` and `startHTTPAPI` of main.go.

The two functions are effectful: they touch the file system, open a database,
register routes and start listeners.  They are embedded as pure functions that
return the sequence of effects they perform, in program order.  Everything the
source takes from outside the file is a parameter:

* the package-level variables `Config` and `DB` are the fields of `Globals`,
  threaded explicitly through `main` and read by `startHTTPAPI`;
* `fileIsAccessible`, `readConfig` and `acmedb.Init` are the fields of `Env`;
* calls whose body is outside the file and whose result main.go ignores
  (`syscall.Umask`, `setupLogging`, `RR.Parse`, `startDNS`, the logging calls)
  are recorded as events and assumed to return.

A call that blocks (`ListenAndServe`, `ListenAndServeTLS`) is followed in the
event sequence by what the code does once the call returns.
-/

namespace AcmeDns

/-! ## Configuration (the fields main.go reads) -/

/-- Section `Config.General`: the fields read in main.go. -/
structure general where
  Listen : String
  Proto : String
  Debug : Bool
  deriving DecidableEq, Repr, Inhabited

/-- Section `Config.Database`. -/
structure dbsettings where
  Engine : String
  Connection : String
  deriving DecidableEq, Repr, Inhabited

/-- Section `Config.API`: the fields read in main.go. -/
structure httpapi where
  Domain : String
  IP : String
  DisableRegistration : Bool
  AutocertPort : String
  Port : String
  TLS : String
  TLSCertPrivkey : String
  TLSCertFullchain : String
  ACMECacheDir : String
  CorsOrigins : List String
  deriving DecidableEq, Repr, Inhabited

/-- Section `Config.Logconfig`. -/
structure logconfig where
  Level : String
  Format : String
  deriving DecidableEq, Repr, Inhabited

/-- The type of the package-level variable `Config`. -/
structure DNSConfig where
  General : general
  Database : dbsettings
  API : httpapi
  Logconfig : logconfig
  deriving DecidableEq, Repr, Inhabited

/-- A database handle: `new(acmedb)` on which `Init engine connection` succeeded. -/
structure acmedb where
  engine : String
  connection : String
  deriving DecidableEq, Repr, Inhabited

/-- The package-level variables of the program: `Config` and `DB` (nil until assigned). -/
structure Globals where
  Config : DNSConfig
  DB : Option acmedb
  deriving DecidableEq, Repr, Inhabited

/-- The Go zero value of `DNSConfig`. -/
def zeroConfig : DNSConfig :=
  { General := { Listen := "", Proto := "", Debug := false }
    Database := { Engine := "", Connection := "" }
    API := { Domain := "", IP := "", DisableRegistration := false, AutocertPort := "",
             Port := "", TLS := "", TLSCertPrivkey := "", TLSCertFullchain := "",
             ACMECacheDir := "", CorsOrigins := [] }
    Logconfig := { Level := "", Format := "" } }

/-- The package-level variables when the process starts. -/
def zeroGlobals : Globals := { Config := zeroConfig, DB := none }

/-! ## Logging -/

/-- Levels of the logrus calls made in main.go. -/
inductive Level
  | debug
  | info
  | error
  deriving DecidableEq, Repr

/-- One logrus call: level, message (format string), format arguments, fields. -/
structure LogEntry where
  level : Level
  msg : String
  args : List String
  fields : List (String × String)
  deriving DecidableEq, Repr

/-- The value `stdlog.New(logwriter, pfx, flags)`; there is one `logwriter`. -/
structure StdLogger where
  pfx : String
  flags : Nat
  deriving DecidableEq, Repr

/-! ## HTTP router -/

/-- The request handlers named in main.go; `Auth` wraps a handler. -/
inductive Handle
  | webRegisterPost
  | webUpdatePost
  | Auth (update : Handle)
  deriving DecidableEq, Repr

/-- One registration in the router. -/
structure Route where
  method : String
  path : String
  handle : Handle
  deriving DecidableEq, Repr

/-- The router `api`: its registrations, in order. -/
structure Router where
  routes : List Route
  deriving DecidableEq, Repr

/-- The router `httprouter.New()`. -/
def Router.New : Router := { routes := [] }

/-- The call `api.POST(path, handle)`. -/
def Router.POST (api : Router) (path : String) (handle : Handle) : Router :=
  { routes := api.routes ++ [{ method := "POST", path := path, handle := handle }] }

/-! ## CORS, TLS, autocert, servers -/

/-- The record `cors.Options` as filled in by main.go. -/
structure CorsOptions where
  AllowedOrigins : List String
  AllowedMethods : List String
  OptionsPassthrough : Bool
  Debug : Bool
  deriving DecidableEq, Repr

/-- The value `c`: the options given to `cors.New` and the field `c.Log` as set by main.go. -/
structure Cors where
  options : CorsOptions
  Log : Option StdLogger
  deriving DecidableEq, Repr

/-- The call `cors.New(options)`. -/
def Cors.New (options : CorsOptions) : Cors := { options := options, Log := none }

/-- The value `autocert.Manager`: `Cache` is the directory of `DirCache`, `Prompt` is
true for `AcceptTOS`, `HostPolicy` is the list given to `HostWhitelist`. -/
structure Manager where
  Cache : String
  Prompt : Bool
  HostPolicy : List String
  deriving DecidableEq, Repr

/-- The constant `tls.VersionTLS10`. -/
def VersionTLS10 : Nat := 0x0301

/-- The constant `tls.VersionTLS11`. -/
def VersionTLS11 : Nat := 0x0302

/-- The constant `tls.VersionTLS12`. -/
def VersionTLS12 : Nat := 0x0303

/-- The record `tls.Config` as filled in by main.go; `GetCertificate` is either unset
or the method `m.GetCertificate` of a manager `m`. -/
structure TLSConfig where
  MinVersion : Nat
  GetCertificate : Option Manager
  deriving DecidableEq, Repr

/-- The `http.Handler` values built in main.go. -/
inductive Handler
  | cors (c : Cors) (api : Router)
  | autocertHTTP (m : Manager)
  deriving DecidableEq, Repr

/-- The record `http.Server` as filled in by main.go. -/
structure Server where
  Addr : String
  Handler : Handler
  TLSConfig : TLSConfig
  ErrorLog : StdLogger
  deriving DecidableEq, Repr

/-! ## Effects -/

/-- The effects of `startHTTPAPI`. -/
inductive HTTPEvent
  | log (e : LogEntry)
  | goListenAndServe (addr : String) (handler : Handler)
  | listenAndServeTLS (srv : Server) (certFile keyFile : String)
  | listenAndServe (addr : String) (handler : Handler)
  | logFatal
  deriving DecidableEq, Repr

/-- The effects of `main`. -/
inductive MainEvent
  | umask (mask : Nat)
  | log (e : LogEntry)
  | readConfig (path : String)
  | setupLogging (format level : String)
  | rrParse (g : general)
  | dbInit (engine connection : String)
  | assignDB (db : acmedb)
  | startDNS (listen proto : String)
  | startHTTPAPI (es : List HTTPEvent)
  | osExit (code : Nat)
  deriving DecidableEq, Repr

/-- What `main` takes from outside main.go.  A Go `error` is `none` for nil. -/
structure Env where
  fileIsAccessible : String → Bool
  readConfig : String → DNSConfig × Option String
  dbInit : String → String → Option String

/-- The result of running `main`: its effects and the final package-level variables. -/
structure Run where
  trace : List MainEvent
  globals : Globals

/-! ## startHTTPAPI (main.go lines 64-123) -/

/-- The function `startHTTPAPI`.  It has no parameters and reads `Config`.
Every branch ends in `log.Fatal`, which exits the process with status 1 once the
blocking listener call returns; the deferred `logwriter.Close()` then does not run. -/
def startHTTPAPI (g : Globals) : List HTTPEvent :=
  let api := Router.New
  let c := Cors.New
    { AllowedOrigins := g.Config.API.CorsOrigins
      AllowedMethods := ["GET", "POST"]
      OptionsPassthrough := false
      Debug := g.Config.General.Debug }
  let c := if g.Config.General.Debug then { c with Log := some { pfx := "", flags := 0 } } else c
  let api := if !g.Config.API.DisableRegistration
    then api.POST "/register" Handle.webRegisterPost else api
  let api := api.POST "/update" (Handle.Auth Handle.webUpdatePost)
  let host := g.Config.API.IP ++ ":" ++ g.Config.API.Port
  let cfg : TLSConfig := { MinVersion := VersionTLS12, GetCertificate := none }
  if g.Config.API.TLS = "letsencrypt" then
    let m : Manager :=
      { Cache := g.Config.API.ACMECacheDir
        Prompt := true
        HostPolicy := [g.Config.API.Domain] }
    let autocerthost := g.Config.API.IP ++ ":" ++ g.Config.API.AutocertPort
    let cfg := { cfg with GetCertificate := some m }
    let srv : Server :=
      { Addr := host
        Handler := Handler.cors c api
        TLSConfig := cfg
        ErrorLog := { pfx := "", flags := 0 } }
    [ HTTPEvent.log { level := Level.debug, msg := "Opening HTTP port for autocert", args := [],
                      fields := [("autocerthost", autocerthost), ("domain", g.Config.API.Domain)] },
      HTTPEvent.goListenAndServe autocerthost (Handler.autocertHTTP m),
      HTTPEvent.log { level := Level.info,
                      msg := "Listening HTTPS, using certificate from autocert", args := [],
                      fields := [("host", host), ("domain", g.Config.API.Domain)] },
      HTTPEvent.listenAndServeTLS srv "" "",
      HTTPEvent.logFatal ]
  else if g.Config.API.TLS = "cert" then
    let srv : Server :=
      { Addr := host
        Handler := Handler.cors c api
        TLSConfig := cfg
        ErrorLog := { pfx := "", flags := 0 } }
    [ HTTPEvent.log { level := Level.info, msg := "Listening HTTPS", args := [],
                      fields := [("host", host)] },
      HTTPEvent.listenAndServeTLS srv g.Config.API.TLSCertFullchain g.Config.API.TLSCertPrivkey,
      HTTPEvent.logFatal ]
  else
    [ HTTPEvent.log { level := Level.info, msg := "Listening HTTP", args := [],
                      fields := [("host", host)] },
      HTTPEvent.listenAndServe host (Handler.cors c api),
      HTTPEvent.logFatal ]

/-! ## main (main.go lines 18-62) -/

/-- Lines 33-59 of `main`: what follows the assignment `Config, err = readConfig(..)`.
The call `startHTTPAPI()` ends the process (see `startHTTPAPI`), so the final
`log.Debugf` and the deferred `DB.Close()` are not reached. -/
def mainAfterRead (env : Env) (g : Globals) (err : Option String) (t : List MainEvent) : Run :=
  match err with
  | some e =>
    { trace := t ++
        [ MainEvent.log { level := Level.error,
                          msg := "Encountered an error while trying to read configuration file:  %s",
                          args := [e], fields := [] },
          MainEvent.osExit 1 ]
      globals := g }
  | none =>
    let t := t ++
      [ MainEvent.setupLogging g.Config.Logconfig.Format g.Config.Logconfig.Level,
        MainEvent.rrParse g.Config.General,
        MainEvent.dbInit g.Config.Database.Engine g.Config.Database.Connection ]
    match env.dbInit g.Config.Database.Engine g.Config.Database.Connection with
    | some e =>
      { trace := t ++
          [ MainEvent.log { level := Level.error, msg := "Could not open database [%v]",
                            args := [e], fields := [] },
            MainEvent.osExit 1 ]
        globals := g }
    | none =>
      let newDB : acmedb :=
        { engine := g.Config.Database.Engine, connection := g.Config.Database.Connection }
      let g := { g with DB := some newDB }
      { trace := t ++
          [ MainEvent.log { level := Level.info, msg := "Connected to database", args := [],
                            fields := [] },
            MainEvent.assignDB newDB,
            MainEvent.startDNS g.Config.General.Listen g.Config.General.Proto,
            MainEvent.startHTTPAPI (startHTTPAPI g) ]
        globals := g }

/-- The function `main`, started with the package-level variables `g`. -/
def main (env : Env) (g : Globals) : Run :=
  let t := [MainEvent.umask 0o077]
  if env.fileIsAccessible "/etc/acme-dns/config.cfg" then
    let r := env.readConfig "/etc/acme-dns/config.cfg"
    mainAfterRead env { g with Config := r.1 } r.2
      (t ++ [ MainEvent.log { level := Level.info, msg := "Using config file", args := [],
                              fields := [("file", "/etc/acme-dns/config.cfg")] },
              MainEvent.readConfig "/etc/acme-dns/config.cfg" ])
  else if env.fileIsAccessible "./config.cfg" then
    let r := env.readConfig "./config.cfg"
    mainAfterRead env { g with Config := r.1 } r.2
      (t ++ [ MainEvent.log { level := Level.info, msg := "Using config file", args := [],
                              fields := [("file", "./config.cfg")] },
              MainEvent.readConfig "./config.cfg" ])
  else
    { trace := t ++
        [ MainEvent.log { level := Level.error, msg := "Configuration file not found.",
                          args := [], fields := [] },
          MainEvent.osExit 1 ]
      globals := g }

/-! ## Observations on effect sequences -/

/-- The handler an event serves, for the three listener calls. -/
def HTTPEvent.handler : HTTPEvent → Option Handler
  | HTTPEvent.goListenAndServe _ h => some h
  | HTTPEvent.listenAndServeTLS srv _ _ => some srv.Handler
  | HTTPEvent.listenAndServe _ h => some h
  | _ => none

/-- The router a handler wraps: only the CORS handler wraps one. -/
def Handler.router : Handler → Option Router
  | Handler.cors _ api => some api
  | Handler.autocertHTTP _ => none

/-- The routers served by the listeners of an effect sequence. -/
def routeTables (es : List HTTPEvent) : List Router :=
  es.filterMap (fun e => e.handler.bind Handler.router)

/-- The address and handler of a blocking (foreground) listener call. -/
def HTTPEvent.mainListener : HTTPEvent → Option (String × Handler)
  | HTTPEvent.listenAndServeTLS srv _ _ => some (srv.Addr, srv.Handler)
  | HTTPEvent.listenAndServe addr h => some (addr, h)
  | _ => none

/-- The blocking listeners of an effect sequence, in order. -/
def mainListeners (es : List HTTPEvent) : List (String × Handler) :=
  es.filterMap HTTPEvent.mainListener

/-- Whether an event is one of the three listener calls. -/
def HTTPEvent.isListener : HTTPEvent → Bool
  | HTTPEvent.goListenAndServe _ _ => true
  | HTTPEvent.listenAndServeTLS _ _ _ => true
  | HTTPEvent.listenAndServe _ _ => true
  | _ => false

/-- The listener calls of an effect sequence, in order. -/
def listeners (es : List HTTPEvent) : List HTTPEvent := es.filter HTTPEvent.isListener

/-- The TLS configurations of the servers started with `ListenAndServeTLS`. -/
def tlsConfigs (es : List HTTPEvent) : List TLSConfig :=
  es.filterMap (fun e => match e with
    | HTTPEvent.listenAndServeTLS srv _ _ => some srv.TLSConfig
    | _ => none)

/-- The router that lines 69-83 of `startHTTPAPI` build. -/
def apiOf (g : Globals) : Router :=
  let api := Router.New
  let api := if !g.Config.API.DisableRegistration
    then api.POST "/register" Handle.webRegisterPost else api
  api.POST "/update" (Handle.Auth Handle.webUpdatePost)

/-- The CORS value that lines 70-79 of `startHTTPAPI` build. -/
def corsOf (g : Globals) : Cors :=
  let c := Cors.New
    { AllowedOrigins := g.Config.API.CorsOrigins
      AllowedMethods := ["GET", "POST"]
      OptionsPassthrough := false
      Debug := g.Config.General.Debug }
  if g.Config.General.Debug then { c with Log := some { pfx := "", flags := 0 } } else c

/-- The route `POST /update` with the guarded handler. -/
def updateRoute : Route :=
  { method := "POST", path := "/update", handle := Handle.Auth Handle.webUpdatePost }

/-- The route `POST /register`. -/
def registerRoute : Route :=
  { method := "POST", path := "/register", handle := Handle.webRegisterPost }

/-- The arguments of the `startDNS` calls of a trace, in order. -/
def dnsStarts (t : List MainEvent) : List (String × String) :=
  t.filterMap (fun e => match e with
    | MainEvent.startDNS l p => some (l, p)
    | _ => none)

/-- The effects of the `startHTTPAPI` calls of a trace, in order. -/
def httpStarts (t : List MainEvent) : List (List HTTPEvent) :=
  t.filterMap (fun e => match e with
    | MainEvent.startHTTPAPI es => some es
    | _ => none)

/-- The paths of the `readConfig` calls of a trace, in order. -/
def readConfigs (t : List MainEvent) : List String :=
  t.filterMap (fun e => match e with
    | MainEvent.readConfig p => some p
    | _ => none)

/-- The arguments of the `RR.Parse` calls of a trace, in order. -/
def rrParses (t : List MainEvent) : List general :=
  t.filterMap (fun e => match e with
    | MainEvent.rrParse g => some g
    | _ => none)

/-- The arguments of the `Init` calls on the database handle in a trace, in order. -/
def dbInits (t : List MainEvent) : List (String × String) :=
  t.filterMap (fun e => match e with
    | MainEvent.dbInit engine connection => some (engine, connection)
    | _ => none)

/-- The handles assigned to `DB` in a trace, in order. -/
def dbAssigns (t : List MainEvent) : List acmedb :=
  t.filterMap (fun e => match e with
    | MainEvent.assignDB db => some db
    | _ => none)

/-- A run that stops at `os.Exit(1)` without starting the DNS server or the HTTP API. -/
def Run.failStop (r : Run) : Prop :=
  r.trace.getLast? = some (MainEvent.osExit 1) ∧ dnsStarts r.trace = [] ∧ httpStarts r.trace = []

/-- The path that lines 23-32 of `main` hand to `readConfig`, if any. -/
def selectedConfig (env : Env) : Option String :=
  if env.fileIsAccessible "/etc/acme-dns/config.cfg" then some "/etc/acme-dns/config.cfg"
  else if env.fileIsAccessible "./config.cfg" then some "./config.cfg"
  else none

/-- The events of `main` up to and including the call `readConfig(path)`. -/
def readPrefix (path : String) : List MainEvent :=
  [ MainEvent.umask 0o077,
    MainEvent.log { level := Level.info, msg := "Using config file", args := [],
                    fields := [("file", path)] },
    MainEvent.readConfig path ]

/-- The trace of `main` when no configuration file is accessible. -/
def noFileTrace : List MainEvent :=
  [ MainEvent.umask 0o077,
    MainEvent.log { level := Level.error, msg := "Configuration file not found.",
                    args := [], fields := [] },
    MainEvent.osExit 1 ]

/-- The trace of `main` when `readConfig(path)` returns the error `e`. -/
def readErrTrace (path e : String) : List MainEvent :=
  readPrefix path ++
    [ MainEvent.log { level := Level.error,
                      msg := "Encountered an error while trying to read configuration file:  %s",
                      args := [e], fields := [] },
      MainEvent.osExit 1 ]

/-- The trace of `main` when the configuration `c` is read from `path` and opening the
database returns the error `e`. -/
def dbErrTrace (path : String) (c : DNSConfig) (e : String) : List MainEvent :=
  readPrefix path ++
    [ MainEvent.setupLogging c.Logconfig.Format c.Logconfig.Level,
      MainEvent.rrParse c.General,
      MainEvent.dbInit c.Database.Engine c.Database.Connection,
      MainEvent.log { level := Level.error, msg := "Could not open database [%v]",
                      args := [e], fields := [] },
      MainEvent.osExit 1 ]

/-- The package-level variables once `c` is read and the database is open. -/
def okGlobals (c : DNSConfig) : Globals :=
  { Config := c
    DB := some { engine := c.Database.Engine, connection := c.Database.Connection } }

/-- The trace of `main` when the configuration `c` is read from `path` and the database
opens. -/
def okTrace (path : String) (c : DNSConfig) : List MainEvent :=
  readPrefix path ++
    [ MainEvent.setupLogging c.Logconfig.Format c.Logconfig.Level,
      MainEvent.rrParse c.General,
      MainEvent.dbInit c.Database.Engine c.Database.Connection,
      MainEvent.log { level := Level.info, msg := "Connected to database", args := [],
                      fields := [] },
      MainEvent.assignDB { engine := c.Database.Engine, connection := c.Database.Connection },
      MainEvent.startDNS c.General.Listen c.General.Proto,
      MainEvent.startHTTPAPI (startHTTPAPI (okGlobals c)) ]

/-! ## Sample inputs -/

/-- A configuration: DNS on :53/udp, HTTPS API with autocert. -/
def sampleConfig : DNSConfig :=
  { General := { Listen := ":53", Proto := "udp", Debug := false }
    Database := { Engine := "sqlite3", Connection := "acme-dns.db" }
    API := { Domain := "auth.example.org", IP := "0.0.0.0", DisableRegistration := false,
             AutocertPort := "80", Port := "443", TLS := "letsencrypt",
             TLSCertPrivkey := "privkey.pem", TLSCertFullchain := "fullchain.pem",
             ACMECacheDir := "api-certs", CorsOrigins := ["*"] }
    Logconfig := { Level := "debug", Format := "text" } }

/-- The sample configuration with another TLS mode. -/
def sampleWithTLS (mode : String) : Globals :=
  { Config := { sampleConfig with API := { sampleConfig.API with TLS := mode } }, DB := none }

/-- The sample configuration with registration switched off. -/
def sampleNoRegistration : Globals :=
  { Config := { sampleConfig with API := { sampleConfig.API with DisableRegistration := true } }
    DB := none }

/-- Only ./config.cfg is accessible; reading it and opening the database succeed. -/
def sampleEnv : Env :=
  { fileIsAccessible := fun p => p == "./config.cfg"
    readConfig := fun _ => (sampleConfig, none)
    dbInit := fun _ _ => none }

/-- Both paths are accessible; reading and opening the database succeed. -/
def bothEnv : Env :=
  { fileIsAccessible := fun _ => true
    readConfig := fun _ => (sampleConfig, none)
    dbInit := fun _ _ => none }

/-- No configuration file is accessible. -/
def noFileEnv : Env :=
  { fileIsAccessible := fun _ => false
    readConfig := fun _ => (sampleConfig, none)
    dbInit := fun _ _ => none }

/-- The file /etc/acme-dns/config.cfg is accessible and readConfig fails on it. -/
def badConfigEnv : Env :=
  { fileIsAccessible := fun p => p == "/etc/acme-dns/config.cfg"
    readConfig := fun _ => (zeroConfig, some "parse error")
    dbInit := fun _ _ => none }

/-- The configuration is read and opening the database fails. -/
def badDBEnv : Env :=
  { fileIsAccessible := fun p => p == "/etc/acme-dns/config.cfg"
    readConfig := fun _ => (sampleConfig, none)
    dbInit := fun _ _ => some "unable to open database file" }

/-! ## Helper lemmas -/

theorem routeTables_startHTTPAPI (g : Globals) :
    routeTables (startHTTPAPI g) = [apiOf g] := by
  unfold startHTTPAPI
  by_cases h1 : g.Config.API.TLS = "letsencrypt"
  · simp [h1, routeTables, HTTPEvent.handler, Handler.router, apiOf]
  · by_cases h2 : g.Config.API.TLS = "cert"
    · simp [h1, h2, routeTables, HTTPEvent.handler, Handler.router, apiOf]
    · simp [h1, h2, routeTables, HTTPEvent.handler, Handler.router, apiOf]

theorem apiOf_routes (g : Globals) :
    (apiOf g).routes =
      if g.Config.API.DisableRegistration then [updateRoute] else [registerRoute, updateRoute] := by
  cases h : g.Config.API.DisableRegistration <;>
    simp [apiOf, h, Router.New, Router.POST, updateRoute, registerRoute]

theorem mainListeners_startHTTPAPI (g : Globals) :
    mainListeners (startHTTPAPI g) =
      [(g.Config.API.IP ++ ":" ++ g.Config.API.Port, Handler.cors (corsOf g) (apiOf g))] := by
  unfold startHTTPAPI
  by_cases h1 : g.Config.API.TLS = "letsencrypt"
  · simp [h1, mainListeners, HTTPEvent.mainListener, apiOf, corsOf]
  · by_cases h2 : g.Config.API.TLS = "cert"
    · simp [h1, h2, mainListeners, HTTPEvent.mainListener, apiOf, corsOf]
    · simp [h1, h2, mainListeners, HTTPEvent.mainListener, apiOf, corsOf]

/-- The four ways `main` can run, each with its whole trace and final variables. -/
theorem main_cases (env : Env) (g0 : Globals) :
    (selectedConfig env = none ∧ main env g0 = { trace := noFileTrace, globals := g0 }) ∨
    (∃ path e, selectedConfig env = some path ∧ (env.readConfig path).2 = some e ∧
      main env g0 =
        { trace := readErrTrace path e
          globals := { g0 with Config := (env.readConfig path).1 } }) ∨
    (∃ path e, selectedConfig env = some path ∧ (env.readConfig path).2 = none ∧
      env.dbInit (env.readConfig path).1.Database.Engine
        (env.readConfig path).1.Database.Connection = some e ∧
      main env g0 =
        { trace := dbErrTrace path (env.readConfig path).1 e
          globals := { g0 with Config := (env.readConfig path).1 } }) ∨
    (∃ path, selectedConfig env = some path ∧ (env.readConfig path).2 = none ∧
      env.dbInit (env.readConfig path).1.Database.Engine
        (env.readConfig path).1.Database.Connection = none ∧
      main env g0 =
        { trace := okTrace path (env.readConfig path).1
          globals := okGlobals (env.readConfig path).1 }) := by
  have key : ∀ path, selectedConfig env = some path →
      main env g0 = mainAfterRead env { g0 with Config := (env.readConfig path).1 }
        (env.readConfig path).2 (readPrefix path) →
      (∃ path e, selectedConfig env = some path ∧ (env.readConfig path).2 = some e ∧
        main env g0 =
          { trace := readErrTrace path e
            globals := { g0 with Config := (env.readConfig path).1 } }) ∨
      (∃ path e, selectedConfig env = some path ∧ (env.readConfig path).2 = none ∧
        env.dbInit (env.readConfig path).1.Database.Engine
          (env.readConfig path).1.Database.Connection = some e ∧
        main env g0 =
          { trace := dbErrTrace path (env.readConfig path).1 e
            globals := { g0 with Config := (env.readConfig path).1 } }) ∨
      (∃ path, selectedConfig env = some path ∧ (env.readConfig path).2 = none ∧
        env.dbInit (env.readConfig path).1.Database.Engine
          (env.readConfig path).1.Database.Connection = none ∧
        main env g0 =
          { trace := okTrace path (env.readConfig path).1
            globals := okGlobals (env.readConfig path).1 }) := by
    intro path hs hm
    rw [hm]
    cases hr : (env.readConfig path).2 with
    | some e =>
      left
      exact ⟨path, e, hs, hr, by simp [mainAfterRead, readErrTrace]⟩
    | none =>
      right
      cases hd : env.dbInit (env.readConfig path).1.Database.Engine
          (env.readConfig path).1.Database.Connection with
      | some e =>
        left
        exact ⟨path, e, hs, hr, hd, by simp [mainAfterRead, hd, dbErrTrace]⟩
      | none =>
        right
        exact ⟨path, hs, hr, hd, by simp [mainAfterRead, hd, okTrace, okGlobals]⟩
  by_cases h1 : env.fileIsAccessible "/etc/acme-dns/config.cfg" = true
  · exact Or.inr (key "/etc/acme-dns/config.cfg" (by simp [selectedConfig, h1])
      (by simp [main, h1, readPrefix]))
  · by_cases h2 : env.fileIsAccessible "./config.cfg" = true
    · exact Or.inr (key "./config.cfg" (by simp [selectedConfig, h1, h2])
        (by simp [main, h1, h2, readPrefix]))
    · left
      exact ⟨by simp [selectedConfig, h1, h2], by simp [main, h1, h2, noFileTrace]⟩

theorem mem_readConfigs (t : List MainEvent) (path : String) :
    path ∈ readConfigs t ↔ MainEvent.readConfig path ∈ t := by
  unfold readConfigs
  rw [List.mem_filterMap]
  constructor
  · rintro ⟨e, he, h⟩
    cases e <;> simp at h
    subst h
    exact he
  · intro h
    exact ⟨_, h, rfl⟩

theorem mem_dnsStarts (t : List MainEvent) (l p : String) :
    (l, p) ∈ dnsStarts t ↔ MainEvent.startDNS l p ∈ t := by
  unfold dnsStarts
  rw [List.mem_filterMap]
  constructor
  · rintro ⟨e, he, h⟩
    cases e <;> simp at h
    obtain ⟨h1, h2⟩ := h
    subst h1 h2
    exact he
  · intro h
    exact ⟨_, h, rfl⟩

theorem readConfigs_main (env : Env) (g0 : Globals) :
    readConfigs (main env g0).trace = (selectedConfig env).toList := by
  rcases main_cases env g0 with ⟨hs, hm⟩ | ⟨path, e, hs, _, hm⟩ | ⟨path, e, hs, _, _, hm⟩ |
      ⟨path, hs, _, _, hm⟩ <;>
    simp [hm, hs, readConfigs, noFileTrace, readErrTrace, dbErrTrace, okTrace, readPrefix]

theorem selectedConfig_none (env : Env) :
    selectedConfig env = none ↔
      env.fileIsAccessible "/etc/acme-dns/config.cfg" = false ∧
        env.fileIsAccessible "./config.cfg" = false := by
  unfold selectedConfig
  cases env.fileIsAccessible "/etc/acme-dns/config.cfg" <;>
    cases env.fileIsAccessible "./config.cfg" <;> simp

theorem selectedConfig_some (env : Env) (path : String) :
    selectedConfig env = some path ↔
      (env.fileIsAccessible "/etc/acme-dns/config.cfg" = true ∧
          path = "/etc/acme-dns/config.cfg") ∨
        (env.fileIsAccessible "/etc/acme-dns/config.cfg" = false ∧
          env.fileIsAccessible "./config.cfg" = true ∧ path = "./config.cfg") := by
  unfold selectedConfig
  cases env.fileIsAccessible "/etc/acme-dns/config.cfg" <;>
    cases env.fileIsAccessible "./config.cfg" <;> simp [eq_comm]

theorem readConfig_mem_main (env : Env) (g0 : Globals) (path : String) :
    MainEvent.readConfig path ∈ (main env g0).trace ↔ selectedConfig env = some path := by
  rw [← mem_readConfigs, readConfigs_main]
  cases selectedConfig env <;> simp [eq_comm]

theorem main_noFile (env : Env) (g0 : Globals) (hs : selectedConfig env = none) :
    main env g0 = { trace := noFileTrace, globals := g0 } := by
  rcases main_cases env g0 with ⟨_, hm⟩ | ⟨q, e, hq, _, _⟩ | ⟨q, e, hq, _, _, _⟩ |
      ⟨q, hq, _, _, _⟩
  · exact hm
  all_goals (rw [hs] at hq; exact absurd hq (by simp))

theorem main_readErr (env : Env) (g0 : Globals) (path e : String)
    (hs : selectedConfig env = some path) (hr : (env.readConfig path).2 = some e) :
    main env g0 =
      { trace := readErrTrace path e
        globals := { g0 with Config := (env.readConfig path).1 } } := by
  rcases main_cases env g0 with ⟨hq, _⟩ | ⟨q, e2, hq, hr2, hm⟩ | ⟨q, e2, hq, hr2, _, _⟩ |
      ⟨q, hq, hr2, _, _⟩
  · rw [hs] at hq; exact absurd hq (by simp)
  · rw [hs] at hq
    obtain rfl := Option.some.inj hq
    rw [hr] at hr2
    obtain rfl := Option.some.inj hr2
    exact hm
  · rw [hs] at hq
    obtain rfl := Option.some.inj hq
    rw [hr] at hr2
    exact absurd hr2 (by simp)
  · rw [hs] at hq
    obtain rfl := Option.some.inj hq
    rw [hr] at hr2
    exact absurd hr2 (by simp)

theorem main_dbErr (env : Env) (g0 : Globals) (path e : String)
    (hs : selectedConfig env = some path) (hr : (env.readConfig path).2 = none)
    (hd : env.dbInit (env.readConfig path).1.Database.Engine
      (env.readConfig path).1.Database.Connection = some e) :
    main env g0 =
      { trace := dbErrTrace path (env.readConfig path).1 e
        globals := { g0 with Config := (env.readConfig path).1 } } := by
  rcases main_cases env g0 with ⟨hq, _⟩ | ⟨q, e2, hq, hr2, _⟩ | ⟨q, e2, hq, _, hd2, hm⟩ |
      ⟨q, hq, _, hd2, _⟩
  · rw [hs] at hq; exact absurd hq (by simp)
  · rw [hs] at hq
    obtain rfl := Option.some.inj hq
    rw [hr] at hr2
    exact absurd hr2 (by simp)
  · rw [hs] at hq
    obtain rfl := Option.some.inj hq
    rw [hd] at hd2
    obtain rfl := Option.some.inj hd2
    exact hm
  · rw [hs] at hq
    obtain rfl := Option.some.inj hq
    rw [hd] at hd2
    exact absurd hd2 (by simp)

theorem main_ok (env : Env) (g0 : Globals) (path : String)
    (hs : selectedConfig env = some path) (hr : (env.readConfig path).2 = none)
    (hd : env.dbInit (env.readConfig path).1.Database.Engine
      (env.readConfig path).1.Database.Connection = none) :
    main env g0 =
      { trace := okTrace path (env.readConfig path).1
        globals := okGlobals (env.readConfig path).1 } := by
  rcases main_cases env g0 with ⟨hq, _⟩ | ⟨q, e2, hq, hr2, _⟩ | ⟨q, e2, hq, _, hd2, _⟩ |
      ⟨q, hq, _, _, hm⟩
  · rw [hs] at hq; exact absurd hq (by simp)
  · rw [hs] at hq
    obtain rfl := Option.some.inj hq
    rw [hr] at hr2
    exact absurd hr2 (by simp)
  · rw [hs] at hq
    obtain rfl := Option.some.inj hq
    rw [hd] at hd2
    exact absurd hd2 (by simp)
  · rw [hs] at hq
    obtain rfl := Option.some.inj hq
    exact hm

/-- The DNS server and the HTTP API are started exactly in the fourth case. -/
theorem starts_main (env : Env) (g0 : Globals) :
    (dnsStarts (main env g0).trace ≠ [] ∨ httpStarts (main env g0).trace ≠ []) →
      ∃ path, selectedConfig env = some path ∧ (env.readConfig path).2 = none ∧
        env.dbInit (env.readConfig path).1.Database.Engine
          (env.readConfig path).1.Database.Connection = none := by
  intro h
  rcases main_cases env g0 with ⟨_, hm⟩ | ⟨q, e, _, _, hm⟩ | ⟨q, e, _, _, _, hm⟩ |
      ⟨q, hq, hr, hd, _⟩
  · simp [hm, dnsStarts, httpStarts, noFileTrace] at h
  · simp [hm, dnsStarts, httpStarts, readErrTrace, readPrefix] at h
  · simp [hm, dnsStarts, httpStarts, dbErrTrace, readPrefix] at h
  · exact ⟨q, hq, hr, hd⟩

/-! ## The route table -/

/-- C1: for every configuration the listeners of startHTTPAPI serve one router; it holds
the route POST /update with handler Auth(webUpdatePost), every route on the path /update
is that route, and no route has the bare webUpdatePost as its handler. -/
theorem update_route_guarded (g : Globals) :
    ∃ api, routeTables (startHTTPAPI g) = [api] ∧
      updateRoute ∈ api.routes ∧
      (∀ r ∈ api.routes, r.path = "/update" → r = updateRoute) ∧
      (∀ r ∈ api.routes, r.handle ≠ Handle.webUpdatePost) := by
  refine ⟨apiOf g, routeTables_startHTTPAPI g, ?_, ?_, ?_⟩
  · rw [apiOf_routes]; split <;> simp
  · intro r hr hp
    rw [apiOf_routes] at hr
    split at hr
    · simpa using hr
    · simp only [List.mem_cons, List.mem_singleton, List.not_mem_nil, or_false] at hr
      rcases hr with rfl | rfl
      · simp [registerRoute] at hp
      · rfl
  · intro r hr
    rw [apiOf_routes] at hr
    split at hr
    · simp only [List.mem_singleton] at hr
      subst hr; simp [updateRoute]
    · simp only [List.mem_cons, List.mem_singleton, List.not_mem_nil, or_false] at hr
      rcases hr with rfl | rfl <;> simp [updateRoute, registerRoute]

/-- C2: the route POST /register with handler webRegisterPost is in the served router
exactly when Config.API.DisableRegistration is false; with registration disabled the
router holds the single route POST /update, with it enabled the two routes. -/
theorem register_route_iff (g : Globals) :
    ∃ api, routeTables (startHTTPAPI g) = [api] ∧
      (registerRoute ∈ api.routes ↔ g.Config.API.DisableRegistration = false) ∧
      ((∃ r ∈ api.routes, r.path = "/register") ↔ g.Config.API.DisableRegistration = false) ∧
      (g.Config.API.DisableRegistration = true → api.routes = [updateRoute]) ∧
      (g.Config.API.DisableRegistration = false → api.routes = [registerRoute, updateRoute]) := by
  refine ⟨apiOf g, routeTables_startHTTPAPI g, ?_, ?_, ?_, ?_⟩
  · rw [apiOf_routes]
    cases h : g.Config.API.DisableRegistration <;> simp [registerRoute, updateRoute]
  · rw [apiOf_routes]
    cases h : g.Config.API.DisableRegistration <;> simp [registerRoute, updateRoute]
  · intro h; rw [apiOf_routes, h]; rfl
  · intro h; rw [apiOf_routes, h]; rfl

/-! ## Deployment modes -/

/-- C3: the listeners started by startHTTPAPI are decided by the string Config.API.TLS
alone, in three cases.  For "letsencrypt": a background plain-HTTP listener on
IP:AutocertPort serving the autocert handler of a manager that whitelists Config.API.Domain,
and an HTTPS server whose certificate comes from that manager (no certificate files).
For "cert": one HTTPS server with the files TLSCertFullchain and TLSCertPrivkey.
For every other string: one plain HTTP listener and no TLS server. -/
theorem tls_mode_three_way (g : Globals) :
    (g.Config.API.TLS = "letsencrypt" →
      listeners (startHTTPAPI g) =
        [ HTTPEvent.goListenAndServe (g.Config.API.IP ++ ":" ++ g.Config.API.AutocertPort)
            (Handler.autocertHTTP
              { Cache := g.Config.API.ACMECacheDir, Prompt := true,
                HostPolicy := [g.Config.API.Domain] }),
          HTTPEvent.listenAndServeTLS
            { Addr := g.Config.API.IP ++ ":" ++ g.Config.API.Port
              Handler := Handler.cors (corsOf g) (apiOf g)
              TLSConfig :=
                { MinVersion := VersionTLS12
                  GetCertificate := some
                    { Cache := g.Config.API.ACMECacheDir, Prompt := true,
                      HostPolicy := [g.Config.API.Domain] } }
              ErrorLog := { pfx := "", flags := 0 } }
            "" "" ]) ∧
    (g.Config.API.TLS = "cert" →
      listeners (startHTTPAPI g) =
        [ HTTPEvent.listenAndServeTLS
            { Addr := g.Config.API.IP ++ ":" ++ g.Config.API.Port
              Handler := Handler.cors (corsOf g) (apiOf g)
              TLSConfig := { MinVersion := VersionTLS12, GetCertificate := none }
              ErrorLog := { pfx := "", flags := 0 } }
            g.Config.API.TLSCertFullchain g.Config.API.TLSCertPrivkey ]) ∧
    (g.Config.API.TLS ≠ "letsencrypt" → g.Config.API.TLS ≠ "cert" →
      listeners (startHTTPAPI g) =
        [ HTTPEvent.listenAndServe (g.Config.API.IP ++ ":" ++ g.Config.API.Port)
            (Handler.cors (corsOf g) (apiOf g)) ] ∧
      tlsConfigs (startHTTPAPI g) = []) := by
  refine ⟨?_, ?_, ?_⟩
  · intro h1
    simp [startHTTPAPI, h1, listeners, HTTPEvent.isListener, apiOf, corsOf]
  · intro h2
    have h1 : g.Config.API.TLS ≠ "letsencrypt" := by rw [h2]; decide
    simp [startHTTPAPI, h1, h2, listeners, HTTPEvent.isListener, apiOf, corsOf]
  · intro h1 h2
    simp [startHTTPAPI, h1, h2, listeners, tlsConfigs, HTTPEvent.isListener, apiOf, corsOf]

/-- C9: every server that startHTTPAPI starts with TLS has MinVersion = TLS 1.2, which is
above TLS 1.0 and TLS 1.1; in mode "cert" the TLS configuration is exactly that, and in
mode "letsencrypt" it is that with GetCertificate set to the autocert manager, so the two
configurations agree once GetCertificate is cleared. -/
theorem tls_min_version (g : Globals) :
    (∀ c ∈ tlsConfigs (startHTTPAPI g),
      c.MinVersion = VersionTLS12 ∧ VersionTLS10 < c.MinVersion ∧ VersionTLS11 < c.MinVersion) ∧
    (g.Config.API.TLS = "cert" →
      tlsConfigs (startHTTPAPI g) = [{ MinVersion := VersionTLS12, GetCertificate := none }]) ∧
    (g.Config.API.TLS = "letsencrypt" →
      tlsConfigs (startHTTPAPI g) =
        [{ MinVersion := VersionTLS12
           GetCertificate := some
             { Cache := g.Config.API.ACMECacheDir, Prompt := true,
               HostPolicy := [g.Config.API.Domain] } }]) ∧
    (∀ g2 : Globals, g.Config.API.TLS = "letsencrypt" → g2.Config.API.TLS = "cert" →
      (tlsConfigs (startHTTPAPI g)).map (fun c => { c with GetCertificate := none }) =
        tlsConfigs (startHTTPAPI g2)) := by
  have hle : g.Config.API.TLS = "letsencrypt" →
      tlsConfigs (startHTTPAPI g) =
        [{ MinVersion := VersionTLS12
           GetCertificate := some
             { Cache := g.Config.API.ACMECacheDir, Prompt := true,
               HostPolicy := [g.Config.API.Domain] } }] := by
    intro h1
    simp [startHTTPAPI, h1, tlsConfigs]
  have hcert : ∀ g2 : Globals, g2.Config.API.TLS = "cert" →
      tlsConfigs (startHTTPAPI g2) = [{ MinVersion := VersionTLS12, GetCertificate := none }] := by
    intro g2 h2
    have h1 : g2.Config.API.TLS ≠ "letsencrypt" := by rw [h2]; decide
    simp [startHTTPAPI, h1, h2, tlsConfigs]
  refine ⟨?_, hcert g, hle, ?_⟩
  · intro c hc
    by_cases h1 : g.Config.API.TLS = "letsencrypt"
    · rw [hle h1] at hc
      simp only [List.mem_singleton] at hc
      subst hc
      simp [VersionTLS12, VersionTLS10, VersionTLS11]
    · by_cases h2 : g.Config.API.TLS = "cert"
      · rw [hcert g h2] at hc
        simp only [List.mem_singleton] at hc
        subst hc
        simp [VersionTLS12, VersionTLS10, VersionTLS11]
      · simp [startHTTPAPI, h1, h2, tlsConfigs] at hc
  · intro g2 h1 h2
    rw [hle h1, hcert g2 h2]
    rfl

/-! ## Startup -/

/-- C7: when /etc/acme-dns/config.cfg is accessible, readConfig is called on it and on
nothing else, so ./config.cfg is not read; ./config.cfg is read exactly when
/etc/acme-dns/config.cfg is not accessible and ./config.cfg is; readConfig is called
at most once, and only on one of these two paths. -/
theorem config_precedence (env : Env) (g0 : Globals) :
    (env.fileIsAccessible "/etc/acme-dns/config.cfg" = true →
      readConfigs (main env g0).trace = ["/etc/acme-dns/config.cfg"] ∧
      MainEvent.readConfig "/etc/acme-dns/config.cfg" ∈ (main env g0).trace ∧
      MainEvent.readConfig "./config.cfg" ∉ (main env g0).trace) ∧
    (MainEvent.readConfig "./config.cfg" ∈ (main env g0).trace ↔
      env.fileIsAccessible "/etc/acme-dns/config.cfg" = false ∧
        env.fileIsAccessible "./config.cfg" = true) ∧
    (readConfigs (main env g0).trace).length ≤ 1 ∧
    (∀ path ∈ readConfigs (main env g0).trace,
      path = "/etc/acme-dns/config.cfg" ∨ path = "./config.cfg") := by
  refine ⟨?_, ?_, ?_, ?_⟩
  · intro h
    have hs : selectedConfig env = some "/etc/acme-dns/config.cfg" := by
      simp [selectedConfig, h]
    refine ⟨?_, ?_, ?_⟩
    · rw [readConfigs_main, hs]; rfl
    · rw [readConfig_mem_main]; exact hs
    · rw [readConfig_mem_main, hs]; decide
  · rw [readConfig_mem_main, selectedConfig_some]
    constructor
    · rintro (⟨_, h⟩ | ⟨h1, h2, _⟩)
      · exact absurd h (by decide)
      · exact ⟨h1, h2⟩
    · rintro ⟨h1, h2⟩
      exact Or.inr ⟨h1, h2, rfl⟩
  · rw [readConfigs_main]
    cases selectedConfig env <;> simp
  · intro path hp
    rw [mem_readConfigs, readConfig_mem_main, selectedConfig_some] at hp
    rcases hp with ⟨_, h⟩ | ⟨_, _, h⟩
    · exact Or.inl h
    · exact Or.inr h

/-- C8: startup is fail-stop.  If neither configuration path is accessible, or the
readConfig call made returns an error, main stops at os.Exit(1) with no Init call on the
database and without starting the DNS server or the HTTP API; if the database Init
returns an error, main stops at os.Exit(1) after that one Init call, again starting
neither and leaving DB unassigned.  When all three steps succeed the trace ends with
the assignment of DB, then startDNS, then startHTTPAPI, none of which occurs earlier.
startDNS and startHTTPAPI are called exactly when all three steps succeed. -/
theorem startup_fail_stop (env : Env) (g0 : Globals) :
    (env.fileIsAccessible "/etc/acme-dns/config.cfg" = false →
      env.fileIsAccessible "./config.cfg" = false →
      (main env g0).failStop ∧ dbInits (main env g0).trace = []) ∧
    (∀ path e, MainEvent.readConfig path ∈ (main env g0).trace →
      (env.readConfig path).2 = some e →
      (main env g0).failStop ∧ dbInits (main env g0).trace = []) ∧
    (∀ path e, MainEvent.readConfig path ∈ (main env g0).trace →
      (env.readConfig path).2 = none →
      env.dbInit (env.readConfig path).1.Database.Engine
        (env.readConfig path).1.Database.Connection = some e →
      (main env g0).failStop ∧
      dbInits (main env g0).trace =
        [((env.readConfig path).1.Database.Engine, (env.readConfig path).1.Database.Connection)] ∧
      dbAssigns (main env g0).trace = [] ∧ (main env g0).globals.DB = g0.DB) ∧
    (∀ path, MainEvent.readConfig path ∈ (main env g0).trace →
      (env.readConfig path).2 = none →
      env.dbInit (env.readConfig path).1.Database.Engine
        (env.readConfig path).1.Database.Connection = none →
      ∃ pre db,
        (main env g0).trace =
          pre ++ [ MainEvent.assignDB db,
                   MainEvent.startDNS (env.readConfig path).1.General.Listen
                     (env.readConfig path).1.General.Proto,
                   MainEvent.startHTTPAPI (startHTTPAPI (main env g0).globals) ] ∧
        dbAssigns pre = [] ∧ dnsStarts pre = [] ∧ httpStarts pre = [] ∧
        dbInits pre =
          [((env.readConfig path).1.Database.Engine,
            (env.readConfig path).1.Database.Connection)] ∧
        db = { engine := (env.readConfig path).1.Database.Engine
               connection := (env.readConfig path).1.Database.Connection } ∧
        (main env g0).globals.DB = some db ∧
        (main env g0).globals.Config = (env.readConfig path).1) ∧
    (dnsStarts (main env g0).trace ≠ [] ↔
      ∃ path, MainEvent.readConfig path ∈ (main env g0).trace ∧
        (env.readConfig path).2 = none ∧
        env.dbInit (env.readConfig path).1.Database.Engine
          (env.readConfig path).1.Database.Connection = none) ∧
    (httpStarts (main env g0).trace ≠ [] ↔
      ∃ path, MainEvent.readConfig path ∈ (main env g0).trace ∧
        (env.readConfig path).2 = none ∧
        env.dbInit (env.readConfig path).1.Database.Engine
          (env.readConfig path).1.Database.Connection = none) := by
  refine ⟨?_, ?_, ?_, ?_, ?_, ?_⟩
  · intro h1 h2
    rw [main_noFile env g0 ((selectedConfig_none env).2 ⟨h1, h2⟩)]
    simp [Run.failStop, noFileTrace, dnsStarts, httpStarts, dbInits]
  · intro path e hp hr
    rw [readConfig_mem_main] at hp
    rw [main_readErr env g0 path e hp hr]
    simp [Run.failStop, readErrTrace, readPrefix, dnsStarts, httpStarts, dbInits]
  · intro path e hp hr hd
    rw [readConfig_mem_main] at hp
    rw [main_dbErr env g0 path e hp hr hd]
    simp [Run.failStop, dbErrTrace, readPrefix, dnsStarts, httpStarts, dbInits, dbAssigns]
  · intro path hp hr hd
    rw [readConfig_mem_main] at hp
    rw [main_ok env g0 path hp hr hd]
    refine ⟨readPrefix path ++
        [ MainEvent.setupLogging (env.readConfig path).1.Logconfig.Format
            (env.readConfig path).1.Logconfig.Level,
          MainEvent.rrParse (env.readConfig path).1.General,
          MainEvent.dbInit (env.readConfig path).1.Database.Engine
            (env.readConfig path).1.Database.Connection,
          MainEvent.log { level := Level.info, msg := "Connected to database", args := [],
                          fields := [] } ],
      { engine := (env.readConfig path).1.Database.Engine
        connection := (env.readConfig path).1.Database.Connection }, ?_⟩
    simp [okTrace, okGlobals, readPrefix, dnsStarts, httpStarts, dbInits, dbAssigns]
  · constructor
    · intro h
      obtain ⟨path, hs, hr, hd⟩ := starts_main env g0 (Or.inl h)
      exact ⟨path, (readConfig_mem_main env g0 path).2 hs, hr, hd⟩
    · rintro ⟨path, hp, hr, hd⟩
      rw [readConfig_mem_main] at hp
      rw [main_ok env g0 path hp hr hd]
      simp [okTrace, readPrefix, dnsStarts]
  · constructor
    · intro h
      obtain ⟨path, hs, hr, hd⟩ := starts_main env g0 (Or.inr h)
      exact ⟨path, (readConfig_mem_main env g0 path).2 hs, hr, hd⟩
    · rintro ⟨path, hp, hr, hd⟩
      rw [readConfig_mem_main] at hp
      rw [main_ok env g0 path hp hr hd]
      simp [okTrace, readPrefix, httpStarts]

/-- C4: on every run of main that reaches startDNS, RR.Parse is called exactly once, on
the General section of the configuration that readConfig returned without error; that
call comes after the readConfig call and before startDNS, and there is no RR.Parse call
before it, between it and startDNS, or after startDNS. -/
theorem zone_loaded_once (env : Env) (g0 : Globals) (l p : String)
    (h : MainEvent.startDNS l p ∈ (main env g0).trace) :
    ∃ path pre mid post,
      (env.readConfig path).2 = none ∧
      (main env g0).trace =
        pre ++ [MainEvent.rrParse (env.readConfig path).1.General] ++ mid ++
          [MainEvent.startDNS l p] ++ post ∧
      MainEvent.readConfig path ∈ pre ∧
      rrParses pre = [] ∧ rrParses mid = [] ∧ rrParses post = [] ∧
      dnsStarts pre = [] ∧ dnsStarts mid = [] ∧
      rrParses (main env g0).trace = [(env.readConfig path).1.General] := by
  have hne : dnsStarts (main env g0).trace ≠ [] :=
    List.ne_nil_of_mem ((mem_dnsStarts _ l p).2 h)
  obtain ⟨path, hs, hr, hd⟩ := starts_main env g0 (Or.inl hne)
  rw [main_ok env g0 path hs hr hd] at h ⊢
  have hlp : l = (env.readConfig path).1.General.Listen ∧
      p = (env.readConfig path).1.General.Proto := by
    simpa [okTrace, readPrefix] using h
  obtain ⟨rfl, rfl⟩ := hlp
  refine ⟨path,
    readPrefix path ++
      [MainEvent.setupLogging (env.readConfig path).1.Logconfig.Format
        (env.readConfig path).1.Logconfig.Level],
    [ MainEvent.dbInit (env.readConfig path).1.Database.Engine
        (env.readConfig path).1.Database.Connection,
      MainEvent.log { level := Level.info, msg := "Connected to database", args := [],
                      fields := [] },
      MainEvent.assignDB { engine := (env.readConfig path).1.Database.Engine
                           connection := (env.readConfig path).1.Database.Connection } ],
    [MainEvent.startHTTPAPI (startHTTPAPI (okGlobals (env.readConfig path).1))], hr, ?_⟩
  simp [okTrace, readPrefix, rrParses, dnsStarts]

/-- C5: for every configuration the blocking HTTP listener of startHTTPAPI has address
Config.API.IP ++ ":" ++ Config.API.Port and the CORS-wrapped router as handler, and this
pair does not change when Config.API.TLS is replaced by any other string; every startDNS
call of main has the arguments (Config.General.Listen, Config.General.Proto) of the
configuration that was read, and there is at most one such call. -/
theorem listener_and_dns_addresses (g : Globals) (env : Env) (g0 : Globals) :
    mainListeners (startHTTPAPI g) =
      [(g.Config.API.IP ++ ":" ++ g.Config.API.Port, Handler.cors (corsOf g) (apiOf g))] ∧
    (∀ mode : String,
      mainListeners
          (startHTTPAPI
            { g with Config := { g.Config with API := { g.Config.API with TLS := mode } } }) =
        mainListeners (startHTTPAPI g)) ∧
    (∀ a ∈ dnsStarts (main env g0).trace,
      a = ((main env g0).globals.Config.General.Listen,
           (main env g0).globals.Config.General.Proto)) ∧
    (∀ path, MainEvent.readConfig path ∈ (main env g0).trace →
      (main env g0).globals.Config = (env.readConfig path).1) ∧
    (dnsStarts (main env g0).trace).length ≤ 1 := by
  refine ⟨mainListeners_startHTTPAPI g, ?_, ?_, ?_, ?_⟩
  · intro mode
    rw [mainListeners_startHTTPAPI, mainListeners_startHTTPAPI]
    simp [corsOf, apiOf]
  · intro a ha
    rcases main_cases env g0 with ⟨_, hm⟩ | ⟨q, e, _, _, hm⟩ | ⟨q, e, _, _, _, hm⟩ |
        ⟨q, _, _, _, hm⟩
    · simp [hm, dnsStarts, noFileTrace] at ha
    · simp [hm, dnsStarts, readErrTrace, readPrefix] at ha
    · simp [hm, dnsStarts, dbErrTrace, readPrefix] at ha
    · rw [hm] at ha ⊢
      simpa [dnsStarts, okTrace, readPrefix, okGlobals] using ha
  · intro path hp
    rw [readConfig_mem_main] at hp
    rcases main_cases env g0 with ⟨hs, _⟩ | ⟨q, e, hs, _, hm⟩ | ⟨q, e, hs, _, _, hm⟩ |
        ⟨q, hs, _, _, hm⟩
    · rw [hp] at hs; exact absurd hs (by simp)
    all_goals
      rw [hp] at hs
      obtain rfl := Option.some.inj hs
      rw [hm]
    · rfl
  · rcases main_cases env g0 with ⟨_, hm⟩ | ⟨q, e, _, _, hm⟩ | ⟨q, e, _, _, _, hm⟩ |
        ⟨q, _, _, _, hm⟩ <;>
      simp [hm, dnsStarts, noFileTrace, readErrTrace, dbErrTrace, okTrace, readPrefix]

/-- C1 at the sample configuration with registration enabled: the served router holds the
guarded update route and no bare webUpdatePost. -/
theorem update_route_guarded_witness :
    ∃ api, routeTables (startHTTPAPI (sampleWithTLS "cert")) = [api] ∧
      updateRoute ∈ api.routes ∧
      (∀ r ∈ api.routes, r.path = "/update" → r = updateRoute) ∧
      (∀ r ∈ api.routes, r.handle ≠ Handle.webUpdatePost) :=
  update_route_guarded (sampleWithTLS "cert")

/-- C2 with registration switched off: the router is the single route POST /update. -/
theorem register_route_iff_witness :
    sampleNoRegistration.Config.API.DisableRegistration = true ∧
    routeTables (startHTTPAPI sampleNoRegistration) = [{ routes := [updateRoute] }] := by
  obtain ⟨api, h1, _, _, h2, _⟩ := register_route_iff sampleNoRegistration
  refine ⟨rfl, ?_⟩
  rw [h1]
  have h3 := h2 rfl
  cases api
  simp only at h3
  rw [h3]

/-- C3 at four values of Config.API.TLS: "letsencrypt" and "cert" start a TLS server,
the empty string and "Letsencrypt" a plain listener. -/
theorem tls_mode_three_way_witness :
    (listeners (startHTTPAPI (sampleWithTLS "letsencrypt"))).length = 2 ∧
    (listeners (startHTTPAPI (sampleWithTLS "cert"))).length = 1 ∧
    (tlsConfigs (startHTTPAPI (sampleWithTLS ""))) = [] ∧
    (tlsConfigs (startHTTPAPI (sampleWithTLS "Letsencrypt"))) = [] := by
  refine ⟨?_, ?_, ?_, ?_⟩
  · rw [(tls_mode_three_way (sampleWithTLS "letsencrypt")).1 rfl]; rfl
  · rw [(tls_mode_three_way (sampleWithTLS "cert")).2.1 rfl]; rfl
  · exact ((tls_mode_three_way (sampleWithTLS "")).2.2 (by decide) (by decide)).2
  · exact ((tls_mode_three_way (sampleWithTLS "Letsencrypt")).2.2 (by decide) (by decide)).2

/-- C9 at the sample configuration in the modes "letsencrypt" and "cert". -/
theorem tls_min_version_witness :
    tlsConfigs (startHTTPAPI (sampleWithTLS "cert")) =
      [{ MinVersion := 0x0303, GetCertificate := none }] ∧
    (tlsConfigs (startHTTPAPI (sampleWithTLS "letsencrypt"))).map
        (fun c => { c with GetCertificate := none }) =
      tlsConfigs (startHTTPAPI (sampleWithTLS "cert")) :=
  ⟨(tls_min_version (sampleWithTLS "cert")).2.1 rfl,
   (tls_min_version (sampleWithTLS "letsencrypt")).2.2.2 (sampleWithTLS "cert") rfl rfl⟩

/-- C4 at the sample environment: startDNS ":53" "udp" is reached and RR.Parse ran once. -/
theorem zone_loaded_once_witness :
    MainEvent.startDNS ":53" "udp" ∈ (main sampleEnv zeroGlobals).trace ∧
    ∃ path pre mid post,
      (sampleEnv.readConfig path).2 = none ∧
      (main sampleEnv zeroGlobals).trace =
        pre ++ [MainEvent.rrParse (sampleEnv.readConfig path).1.General] ++ mid ++
          [MainEvent.startDNS ":53" "udp"] ++ post ∧
      MainEvent.readConfig path ∈ pre ∧
      rrParses pre = [] ∧ rrParses mid = [] ∧ rrParses post = [] ∧
      dnsStarts pre = [] ∧ dnsStarts mid = [] ∧
      rrParses (main sampleEnv zeroGlobals).trace = [(sampleEnv.readConfig path).1.General] :=
  have h : MainEvent.startDNS ":53" "udp" ∈ (main sampleEnv zeroGlobals).trace := by
    simp [main, mainAfterRead, sampleEnv, sampleConfig]
  ⟨h, zone_loaded_once sampleEnv zeroGlobals ":53" "udp" h⟩

/-- C5 at the sample configuration and environment. -/
theorem listener_and_dns_addresses_witness :
    mainListeners (startHTTPAPI (sampleWithTLS "cert")) =
      [("0.0.0.0:443",
        Handler.cors (corsOf (sampleWithTLS "cert")) (apiOf (sampleWithTLS "cert")))] ∧
    dnsStarts (main sampleEnv zeroGlobals).trace = [(":53", "udp")] := by
  refine ⟨?_, ?_⟩
  · rw [(listener_and_dns_addresses (sampleWithTLS "cert") sampleEnv zeroGlobals).1]
    simp [sampleWithTLS, sampleConfig]
  · simp [main, mainAfterRead, sampleEnv, sampleConfig, dnsStarts]

/-- C7 when both files are accessible: only /etc/acme-dns/config.cfg is read. -/
theorem config_precedence_witness :
    bothEnv.fileIsAccessible "./config.cfg" = true ∧
    readConfigs (main bothEnv zeroGlobals).trace = ["/etc/acme-dns/config.cfg"] ∧
    MainEvent.readConfig "/etc/acme-dns/config.cfg" ∈ (main bothEnv zeroGlobals).trace ∧
    MainEvent.readConfig "./config.cfg" ∉ (main bothEnv zeroGlobals).trace :=
  ⟨rfl, (config_precedence bothEnv zeroGlobals).1 rfl⟩

/-- C8 at four environments: no file, a failing readConfig, a failing database Init, and
a successful start. -/
theorem startup_fail_stop_witness :
    (main noFileEnv zeroGlobals).failStop ∧
    (main badConfigEnv zeroGlobals).failStop ∧
    dbInits (main badConfigEnv zeroGlobals).trace = [] ∧
    (main badDBEnv zeroGlobals).failStop ∧
    dbInits (main badDBEnv zeroGlobals).trace = [("sqlite3", "acme-dns.db")] ∧
    dnsStarts (main sampleEnv zeroGlobals).trace ≠ [] ∧
    httpStarts (main sampleEnv zeroGlobals).trace ≠ [] := by
  have hbad : MainEvent.readConfig "/etc/acme-dns/config.cfg" ∈
      (main badConfigEnv zeroGlobals).trace :=
    (readConfig_mem_main _ _ _).2 (by simp [selectedConfig, badConfigEnv])
  have hdb : MainEvent.readConfig "/etc/acme-dns/config.cfg" ∈
      (main badDBEnv zeroGlobals).trace :=
    (readConfig_mem_main _ _ _).2 (by simp [selectedConfig, badDBEnv])
  have hok : MainEvent.readConfig "./config.cfg" ∈ (main sampleEnv zeroGlobals).trace :=
    (readConfig_mem_main _ _ _).2 (by simp [selectedConfig, sampleEnv])
  refine ⟨((startup_fail_stop noFileEnv zeroGlobals).1 rfl rfl).1,
    ((startup_fail_stop badConfigEnv zeroGlobals).2.1 _ "parse error" hbad rfl).1,
    ((startup_fail_stop badConfigEnv zeroGlobals).2.1 _ "parse error" hbad rfl).2,
    ((startup_fail_stop badDBEnv zeroGlobals).2.2.1 _ "unable to open database file"
      hdb rfl rfl).1,
    ((startup_fail_stop badDBEnv zeroGlobals).2.2.1 _ "unable to open database file"
      hdb rfl rfl).2.1,
    (startup_fail_stop sampleEnv zeroGlobals).2.2.2.2.1.2 ⟨_, hok, rfl, rfl⟩,
    (startup_fail_stop sampleEnv zeroGlobals).2.2.2.2.2.2 ⟨_, hok, rfl, rfl⟩⟩

end AcmeDns
